import Mathlib

/-!
Verification of the swapchain / frame-resource lifecycle core of the
`bevy_arca` Direct3D12 renderer, shallowly embedded from the Rust source.

Embedded modules:
- `src/render/descriptor_heap.rs` : `DescriptorHeap` (linear slot allocator)
- `src/render/render_target.rs`   : fence counter, `signal_end_present`,
  `wait_frame_finished`, `resize_swapchains_if_needed`, `handle_resize`,
  `create_swapchain_desc`, `create_viewport`, `create_rect`, `create_fence`
- `src/render/mesh_data/mesh_buffer.rs` : `set_new_data`, `upload`
- `src/render/constant_buffer/mod.rs`   : `ConstantBuffer::create`, `write`
- `src/render/drawer.rs`          : per-frame `draw` orchestration

Machine integers are modelled as `Nat` with explicit `% 2 ^ 64` where u64
wrap-around matters.  Driver-side effects (command lists, queue operations,
OS waits) are modelled as explicit event traces.
-/

namespace BevyArca

/-! ## Fence (src/render/render_target.rs, `Fence` / `create_fence`) -/

/-- Modulus of the `u64` fence counter. -/
def U64_MOD : Nat := 2 ^ 64

/-- The fence state owned by a `WindowRenderTarget`.  The `ID3D12Fence` and
the OS event handle are driver objects; the CPU-visible state is the `u64`
counter `fence_value`. -/
structure Fence where
  fence_value : Nat
deriving DecidableEq

/-- `create_fence` (render_target.rs:292): the fence starts with
`fence_value = 0` (`CreateFence(0, ..)` and `let fence_value = 0`). -/
def create_fence : Fence :=
  { fence_value := 0 }

/-- `WindowRenderTarget::signal_end_present` (render_target.rs:155): enqueues
`queue.Signal(fence, fence_value)` for the current (pre-increment) counter
value, then increments the counter by 1 (u64 wrapping).  Returns the new
fence state together with the value enqueued on the queue. -/
def signal_end_present (f : Fence) : Fence × Nat :=
  ({ fence_value := (f.fence_value + 1) % U64_MOD }, f.fence_value)

/-- Fence state after `n` submissions (each ending in `signal_end_present`)
starting from `create_fence`. -/
def fenceAfter : Nat → Fence
  | 0 => create_fence
  | n + 1 => (signal_end_present (fenceAfter n)).1

/-- The list of values signalled on the queue during the first `n`
submissions, in submission order. -/
def signalTrace : Nat → List Nat
  | 0 => []
  | n + 1 => signalTrace n ++ [(signal_end_present (fenceAfter n)).2]

/-- The value the `k`-th submission (k = 1, 2, ...) signals. -/
def nthSignal (k : Nat) : Nat :=
  (signal_end_present (fenceAfter (k - 1))).2

/-- `WindowRenderTarget::wait_frame_finished` (render_target.rs:168) computes
`previous_fence_value = fence_value - 1` in u64 arithmetic (wrapping
subtraction). -/
def waitTarget (f : Fence) : Nat :=
  (f.fence_value + (U64_MOD - 1)) % U64_MOD

/-- `wait_frame_finished` blocks (SetEventOnCompletion + WaitForSingleObject
with INFINITE) exactly when the fence's completed value is still below
`previous_fence_value`; otherwise it returns immediately. -/
def waitBlocks (f : Fence) (completed : Nat) : Bool :=
  decide (completed < waitTarget f)

theorem U64_MOD_eq : U64_MOD = 18446744073709551616 := by
  norm_num [U64_MOD]

theorem fenceAfter_eq (n : Nat) : fenceAfter n = ⟨n % U64_MOD⟩ := by
  induction n with
  | zero =>
      simp [fenceAfter, create_fence]
  | succ n ih =>
      simp only [fenceAfter, ih, signal_end_present, Fence.mk.injEq]
      rw [U64_MOD_eq]
      omega

theorem nthSignal_eq (k : Nat) : nthSignal k = (k - 1) % U64_MOD := by
  simp [nthSignal, fenceAfter_eq, signal_end_present]

theorem signalTrace_mem_lt (k v : Nat) (hv : v ∈ signalTrace k) : v < k := by
  induction k with
  | zero => simp [signalTrace] at hv
  | succ k ih =>
      simp only [signalTrace, List.mem_append, List.mem_singleton] at hv
      rcases hv with hv | hv
      · exact Nat.lt_succ_of_lt (ih hv)
      · rw [hv, fenceAfter_eq]
        exact Nat.lt_succ_of_le (Nat.mod_le k U64_MOD)

/-! ## Descriptor heap (src/render/descriptor_heap.rs) -/

/-- The D3D12 descriptor heap types this repository creates heaps with:
`D3D12_DESCRIPTOR_HEAP_TYPE_RTV` (render/mod.rs:41) and
`D3D12_DESCRIPTOR_HEAP_TYPE_CBV_SRV_UAV` (pipelines/naive_pathtracer.rs:355). -/
inductive D3D12_DESCRIPTOR_HEAP_TYPE where
  | rtv
  | cbv_srv_uav
deriving DecidableEq

/-- The device facility `DescriptorHeap::new` consults:
`ID3D12Device::GetDescriptorHandleIncrementSize`, a per-heap-type element
stride chosen by the driver. -/
structure Gpu where
  descriptorHandleIncrementSize : D3D12_DESCRIPTOR_HEAP_TYPE → Nat

/-- `DescriptorHeap` (descriptor_heap.rs:9): backing heap (modelled by its
type, size and start address), current write pointer and cached stride. -/
structure DescriptorHeap where
  heap_type : D3D12_DESCRIPTOR_HEAP_TYPE
  descriptor_count : Nat
  heap_start : Nat
  current_ptr : Nat
  heap_increment : Nat
deriving DecidableEq

/-- `DescriptorHeap::new` (descriptor_heap.rs:16).  Note that the source
queries `GetDescriptorHandleIncrementSize(D3D12_DESCRIPTOR_HEAP_TYPE_RTV)`
(descriptor_heap.rs:34) regardless of the `heap_type` argument, so the cached
stride is always the RTV stride.  `heap_start` stands for
`GetCPUDescriptorHandleForHeapStart().ptr`. -/
def DescriptorHeap.new (gpu : Gpu) (heap_type : D3D12_DESCRIPTOR_HEAP_TYPE)
    (descriptor_count : Nat) (heap_start : Nat) : DescriptorHeap :=
  { heap_type := heap_type
    descriptor_count := descriptor_count
    heap_start := heap_start
    current_ptr := heap_start
    heap_increment :=
      gpu.descriptorHandleIncrementSize D3D12_DESCRIPTOR_HEAP_TYPE.rtv }

/-- `DescriptorHeap::cpu_handle` (descriptor_heap.rs:44): returns the current
pointer and advances it by `heap_increment`.  There is no capacity check and
no failure path. -/
def DescriptorHeap.cpu_handle (h : DescriptorHeap) :
    Nat × DescriptorHeap :=
  (h.current_ptr, { h with current_ptr := h.current_ptr + h.heap_increment })

/-- Heap state after `n` calls to `cpu_handle`. -/
def DescriptorHeap.afterCalls (h : DescriptorHeap) : Nat → DescriptorHeap
  | 0 => h
  | n + 1 => ((h.afterCalls n).cpu_handle).2

/-- The handle returned by call number `n + 1` to `cpu_handle` (so `n = 0`
is the first call). -/
def DescriptorHeap.nthHandle (h : DescriptorHeap) (n : Nat) : Nat :=
  ((h.afterCalls n).cpu_handle).1

/-- One-past-the-end address of the heap's slots: `descriptor_count` slots of
stride `heap_increment` from `heap_start`. -/
def DescriptorHeap.heapEnd (h : DescriptorHeap) : Nat :=
  h.heap_start + h.descriptor_count * h.heap_increment

theorem DescriptorHeap.afterCalls_spec (h : DescriptorHeap) (n : Nat) :
    (h.afterCalls n).current_ptr = h.current_ptr + n * h.heap_increment ∧
    (h.afterCalls n).heap_increment = h.heap_increment ∧
    (h.afterCalls n).descriptor_count = h.descriptor_count ∧
    (h.afterCalls n).heap_start = h.heap_start := by
  induction n with
  | zero => simp [DescriptorHeap.afterCalls]
  | succ n ih =>
      obtain ⟨h1, h2, h3, h4⟩ := ih
      simp only [DescriptorHeap.afterCalls, DescriptorHeap.cpu_handle,
        h1, h2, h3, h4]
      refine ⟨by ring, by trivial, by trivial, by trivial⟩

theorem DescriptorHeap.nthHandle_eq (h : DescriptorHeap) (n : Nat) :
    h.nthHandle n = h.current_ptr + n * h.heap_increment := by
  simp [DescriptorHeap.nthHandle, DescriptorHeap.cpu_handle,
    (h.afterCalls_spec n).1]

/-! ## Window render target (src/render/render_target.rs) -/

/-- `FRAME_COUNT` (render_target.rs:32). -/
def FRAME_COUNT : Nat := 2

/-- `DXGI_USAGE_RENDER_TARGET_OUTPUT` (value 0x20). -/
def DXGI_USAGE_RENDER_TARGET_OUTPUT : Nat := 32

/-- `DXGI_SWAP_CHAIN_FLAG_FRAME_LATENCY_WAITABLE_OBJECT` (value 0x40). -/
def DXGI_SWAP_CHAIN_FLAG_FRAME_LATENCY_WAITABLE_OBJECT : Nat := 64

/-- The DXGI pixel format used by this repository. -/
inductive DXGI_FORMAT where
  | r8g8b8a8_unorm
deriving DecidableEq

/-- The DXGI swap effect used by this repository. -/
inductive DXGI_SWAP_EFFECT where
  | flip_discard
deriving DecidableEq

/-- The DXGI alpha mode used by this repository. -/
inductive DXGI_ALPHA_MODE where
  | ignore_alpha
deriving DecidableEq

/-- The fields of `DXGI_SWAP_CHAIN_DESC1` the source sets and compares
(`create_swapchain_desc`, render_target.rs:238).  Widths and heights are the
u32 pixel dimensions. -/
structure DXGI_SWAP_CHAIN_DESC1 where
  Width : Nat
  Height : Nat
  Format : DXGI_FORMAT
  SampleCount : Nat
  BufferUsage : Nat
  BufferCount : Nat
  SwapEffect : DXGI_SWAP_EFFECT
  AlphaMode : DXGI_ALPHA_MODE
  Flags : Nat
deriving DecidableEq

/-- The host window data this core consumes: logical size
(`Window::width()` / `height()`, f32 values that hold the integral logical
size) and physical pixel size (`physical_width()` / `physical_height()`,
u32).  Sizes are modelled as naturals. -/
structure Window where
  width : Nat
  height : Nat
  physical_width : Nat
  physical_height : Nat
deriving DecidableEq

/-- `create_swapchain_desc` (render_target.rs:238): physical size, RGBA8
format, sample count 1, render-target usage, `FRAME_COUNT` buffers,
flip-discard, ignored alpha, frame-latency-waitable flag. -/
def create_swapchain_desc (window : Window) : DXGI_SWAP_CHAIN_DESC1 :=
  { Width := window.physical_width
    Height := window.physical_height
    Format := DXGI_FORMAT.r8g8b8a8_unorm
    SampleCount := 1
    BufferUsage := DXGI_USAGE_RENDER_TARGET_OUTPUT
    BufferCount := FRAME_COUNT
    SwapEffect := DXGI_SWAP_EFFECT.flip_discard
    AlphaMode := DXGI_ALPHA_MODE.ignore_alpha
    Flags := DXGI_SWAP_CHAIN_FLAG_FRAME_LATENCY_WAITABLE_OBJECT }

/-- `D3D12_VIEWPORT`.  The source stores f32 values; the sizes written by
this repository are integral, `D3D12_MIN_DEPTH = 0.0` and
`D3D12_MAX_DEPTH = 1.0`, so the fields are modelled as naturals. -/
structure D3D12_VIEWPORT where
  TopLeftX : Nat
  TopLeftY : Nat
  Width : Nat
  Height : Nat
  MinDepth : Nat
  MaxDepth : Nat
deriving DecidableEq

/-- `create_viewport` (render_target.rs:272). -/
def create_viewport (width height : Nat) : D3D12_VIEWPORT :=
  { TopLeftX := 0
    TopLeftY := 0
    Width := width
    Height := height
    MinDepth := 0
    MaxDepth := 1 }

/-- Win32 `RECT` (i32 fields). -/
structure RECT where
  left : Int
  top : Int
  right : Int
  bottom : Int
deriving DecidableEq

/-- `create_rect` (render_target.rs:283). -/
def create_rect (width height : Int) : RECT :=
  { left := 0
    top := 0
    right := width
    bottom := height }

/-- `WindowRenderTarget` (render_target.rs:58).  The swapchain is modelled by
the descriptor `GetDesc1` reports (kept in sync by swapchain creation and
`ResizeBuffers`); the back-buffer resources are driver objects, represented
by their render-target-view handles. -/
structure WindowRenderTarget where
  swapchain_desc : DXGI_SWAP_CHAIN_DESC1
  rtv_handles : List Nat
  swapchain_buffer_index : Nat
  fence : Fence
  viewport : D3D12_VIEWPORT
  rect : RECT
deriving DecidableEq

/-- Observable actions of the resize-check system, in program order. -/
inductive RtEvent where
  | wait_frame_finished
  | destroy_resources
  | resize_buffers (bufferCount width height : Nat) (format : DXGI_FORMAT)
      (flags : Nat)
  | set_viewport (v : D3D12_VIEWPORT)
  | set_rect (r : RECT)
  | create_rtvs
  | update_frame_index
deriving DecidableEq

/-- `WindowRenderTarget::handle_resize` (render_target.rs:205), in source
order: `destroy_resources()` (clear back-buffer handles), then
`swapchain.ResizeBuffers(desc.BufferCount, desc.Width, desc.Height,
desc.Format, desc.Flags)`, then recompute `viewport` and `rect`, then
`create_rtvs` (recreate the views into the same heap slots).  Returns the
updated target and the event trace. -/
def handle_resize (rt : WindowRenderTarget) (desc : DXGI_SWAP_CHAIN_DESC1)
    (width height : Nat) : WindowRenderTarget × List RtEvent :=
  ({ rt with
      swapchain_desc := desc
      viewport := create_viewport width height
      rect := create_rect width height },
   [RtEvent.destroy_resources,
    RtEvent.resize_buffers desc.BufferCount desc.Width desc.Height
      desc.Format desc.Flags,
    RtEvent.set_viewport (create_viewport width height),
    RtEvent.set_rect (create_rect width height),
    RtEvent.create_rtvs])

/-- One iteration of `resize_swapchains_if_needed` (render_target.rs:84) for
one window: `wait_frame_finished()` unconditionally, then compare the
window's fresh swapchain descriptor against `GetDesc1()`, calling
`handle_resize(device, heap, new_desc, window.width(), window.height())` on
mismatch, and finally `update_frame_index()`. -/
def resize_swapchains_if_needed (window : Window)
    (rt : WindowRenderTarget) : WindowRenderTarget × List RtEvent :=
  let new_swapchain_desc := create_swapchain_desc window
  let old_swapchain_desc := rt.swapchain_desc
  if new_swapchain_desc ≠ old_swapchain_desc then
    let resized := handle_resize rt new_swapchain_desc window.width
      window.height
    (resized.1,
      RtEvent.wait_frame_finished ::
        (resized.2 ++ [RtEvent.update_frame_index]))
  else
    (rt, [RtEvent.wait_frame_finished, RtEvent.update_frame_index])

/-- The events the resize-order claim talks about: the fence wait, dropping
the back-buffer handles, `ResizeBuffers`, recreating the views, and
recomputing the viewport.  (`set_rect` accompanies `set_viewport` and
`update_frame_index` is outside the claimed order.) -/
def isResizeKeyEvent : RtEvent → Bool
  | RtEvent.wait_frame_finished => true
  | RtEvent.destroy_resources => true
  | RtEvent.resize_buffers _ _ _ _ _ => true
  | RtEvent.set_viewport _ => true
  | RtEvent.create_rtvs => true
  | _ => false

/-! ## Mesh data staging (src/render/mesh_data/mod.rs, mesh_buffer.rs) -/

/-- An `[f32; 3]` position element, by bit pattern of each component (the
claims only count elements and bytes, never inspect float values). -/
structure Float3 where
  x : Nat
  y : Nat
  z : Nat
deriving DecidableEq

/-- `std::mem::size_of::<[f32; 3]>()`. -/
def size_of_float3 : Nat := 12

/-- `std::mem::size_of::<u32>()`. -/
def size_of_u32 : Nat := 4

/-- `let vertex_buffer_size = 1024 * 1024` (mesh_buffer.rs:41). -/
def vertex_buffer_size : Nat := 1024 * 1024

/-- `let index_buffer_size = 1024 * 1024` (mesh_buffer.rs:42). -/
def index_buffer_size : Nat := 1024 * 1024

/-- `MeshData` (mesh_data/mod.rs:21): CPU-side position and index arrays. -/
structure MeshData where
  positions : List Float3
  indices : List Nat
  updated : Bool
deriving DecidableEq

/-- The CPU-visible contents of the two upload (staging) buffers of a
`MeshBuffer` (mesh_buffer.rs:10); each was created with a fixed 1 MiB
capacity.  The two GPU-local buffers are driver objects and appear only in
the command trace. -/
structure MeshBuffer where
  upload_vertex_buffer : List Float3
  upload_index_buffer : List Nat
deriving DecidableEq

/-- `MeshBuffer::set_new_data` (mesh_buffer.rs:127): maps each upload buffer
and performs `copy_nonoverlapping` of `data.positions.len()` position
elements and `data.indices.len()` index elements from the start of the
buffer.  There is no capacity check and no failure path. -/
def MeshBuffer.set_new_data (mb : MeshBuffer) (data : MeshData) :
    MeshBuffer :=
  { mb with
    upload_vertex_buffer := data.positions
    upload_index_buffer := data.indices }

/-! ## Command traces (mesh_buffer.rs `upload`, drawer.rs `draw`) -/

/-- Resource states this repository transitions between. -/
inductive D3D12_RESOURCE_STATES where
  | generic_read
  | copy_dest
  | render_target
  | present
deriving DecidableEq

/-- The GPU resources named in recorded commands: the four `MeshBuffer`
resources and the swapchain back buffers (by buffer index). -/
inductive GpuResource where
  | gpu_vertex_buffer
  | upload_vertex_buffer
  | gpu_index_buffer
  | upload_index_buffer
  | back_buffer (index : Nat)
deriving DecidableEq

/-- A `D3D12_RESOURCE_BARRIER` of type TRANSITION with
`D3D12_RESOURCE_BARRIER_FLAG_NONE` and all-subresources scope, as built by
both `MeshBuffer::upload` and `drawer.rs::transition_barrier`. -/
structure TransitionBarrier where
  resource : GpuResource
  state_before : D3D12_RESOURCE_STATES
  state_after : D3D12_RESOURCE_STATES
deriving DecidableEq

/-- Commands recorded on the command list, plus the queue / swapchain / fence
operations the draw orchestration performs, in program order. -/
inductive CmdEvent where
  | resource_barrier (barriers : List TransitionBarrier)
  | copy_resource (dst src : GpuResource)
  | reset_command_allocator
  | reset_command_list_with_pipeline_state
  | set_viewports (vs : List D3D12_VIEWPORT)
  | set_scissor_rects (rs : List RECT)
  | set_render_targets (count : Nat) (handle : Nat)
  | clear_render_target_view (handle : Nat) (color : List Rat)
  | write_camera_data
  | close_command_list
  | execute_command_lists
  | present_swapchain (sync_interval : Nat)
  | queue_signal (value : Nat)
deriving DecidableEq

/-- An `ID3D12GraphicsCommandList`, modelled as the list of commands recorded
on it. -/
structure GraphicsCommandList where
  commands : List CmdEvent
deriving DecidableEq

/-- `ID3D12GraphicsCommandList::ResourceBarrier`. -/
def GraphicsCommandList.resourceBarrier (cl : GraphicsCommandList)
    (barriers : List TransitionBarrier) : GraphicsCommandList :=
  { commands := cl.commands ++ [CmdEvent.resource_barrier barriers] }

/-- `ID3D12GraphicsCommandList::CopyResource`. -/
def GraphicsCommandList.copyResource (cl : GraphicsCommandList)
    (dst src : GpuResource) : GraphicsCommandList :=
  { commands := cl.commands ++ [CmdEvent.copy_resource dst src] }

/-- `MeshBuffer::upload` (mesh_buffer.rs:153), in source order: one
`ResourceBarrier` call with the GENERIC_READ → COPY_DEST transition on both
GPU buffers, `CopyResource` from the upload vertex buffer to the GPU vertex
buffer, `CopyResource` from the upload index buffer to the GPU index buffer,
then one `ResourceBarrier` call with the reverse COPY_DEST → GENERIC_READ
transition on both GPU buffers. -/
def MeshBuffer.upload (_mb : MeshBuffer) (command_list : GraphicsCommandList) :
    GraphicsCommandList :=
  let barriers_before : List TransitionBarrier :=
    [{ resource := GpuResource.gpu_vertex_buffer
       state_before := D3D12_RESOURCE_STATES.generic_read
       state_after := D3D12_RESOURCE_STATES.copy_dest },
     { resource := GpuResource.gpu_index_buffer
       state_before := D3D12_RESOURCE_STATES.generic_read
       state_after := D3D12_RESOURCE_STATES.copy_dest }]
  let cl1 := command_list.resourceBarrier barriers_before
  let cl2 := cl1.copyResource GpuResource.gpu_vertex_buffer
    GpuResource.upload_vertex_buffer
  let cl3 := cl2.copyResource GpuResource.gpu_index_buffer
    GpuResource.upload_index_buffer
  let barriers_after : List TransitionBarrier :=
    [{ resource := GpuResource.gpu_vertex_buffer
       state_before := D3D12_RESOURCE_STATES.copy_dest
       state_after := D3D12_RESOURCE_STATES.generic_read },
     { resource := GpuResource.gpu_index_buffer
       state_before := D3D12_RESOURCE_STATES.copy_dest
       state_after := D3D12_RESOURCE_STATES.generic_read }]
  cl3.resourceBarrier barriers_after

/-! ## Constant buffer (src/render/constant_buffer/mod.rs) -/

/-- `ConstantBuffer<T>` : an upload-heap resource of `size_of::<T>()` bytes.
`size` is the resource `Width` requested from the device and `content` the
bytes currently in the mapped memory (u8 values). -/
structure ConstantBuffer where
  size : Nat
  content : List Nat
deriving DecidableEq

/-- `ConstantBuffer::<T>::create` (constant_buffer/mod.rs:16): commits an
upload-heap buffer resource whose `Width` is exactly `size_of::<T>()`.  The
initial contents of the mapped memory are modelled as zero bytes. -/
def ConstantBuffer.create (size_of_t : Nat) : ConstantBuffer :=
  { size := size_of_t
    content := List.replicate size_of_t 0 }

/-- `ConstantBuffer::write` (constant_buffer/mod.rs:63): maps the buffer and
`copy_nonoverlapping`s exactly `size_of::<T>()` bytes of the value's
representation over the start of the mapped region, then unmaps. -/
def ConstantBuffer.write (cb : ConstantBuffer) (data : List Nat) :
    ConstantBuffer :=
  { cb with
    content := data.take cb.size ++ cb.content.drop cb.size }

/-! ## Draw orchestration (src/render/drawer.rs) -/

/-- `WindowRenderTarget::back_buffer_handle` (render_target.rs:150):
`rtv_handles[swapchain_buffer_index]`. -/
def back_buffer_handle (rt : WindowRenderTarget) : Nat :=
  rt.rtv_handles.getD rt.swapchain_buffer_index 0

/-- The fixed clear color `[0.0, 0.2, 0.4, 1.0]` (drawer.rs:99). -/
def background_color : List Rat := [0, 1/5, 2/5, 1]

/-- The body of the per-render-target loop of `draw` (drawer.rs:73), in
source order: set viewport and scissor from the render target, transition
the current back buffer PRESENT → RENDER_TARGET, `OMSetRenderTargets(1,
rtv_handle, ..)`, clear the render-target view to the background color,
`pipeline.write_camera_data(..)` then `pipeline.populate_command_list(..)`
(the pipeline's recorded commands `pipeCmds`), transition the back buffer
RENDER_TARGET → PRESENT, close the command list, `ExecuteCommandLists`,
`Present(1, 0)`, and `signal_end_present(queue)`. -/
def draw_render_target (rt : WindowRenderTarget)
    (pipeCmds : List CmdEvent) : List CmdEvent :=
  [CmdEvent.set_viewports [rt.viewport],
   CmdEvent.set_scissor_rects [rt.rect],
   CmdEvent.resource_barrier
     [{ resource := GpuResource.back_buffer rt.swapchain_buffer_index
        state_before := D3D12_RESOURCE_STATES.present
        state_after := D3D12_RESOURCE_STATES.render_target }],
   CmdEvent.set_render_targets 1 (back_buffer_handle rt),
   CmdEvent.clear_render_target_view (back_buffer_handle rt)
     background_color,
   CmdEvent.write_camera_data]
  ++ pipeCmds ++
  [CmdEvent.resource_barrier
     [{ resource := GpuResource.back_buffer rt.swapchain_buffer_index
        state_before := D3D12_RESOURCE_STATES.render_target
        state_after := D3D12_RESOURCE_STATES.present }],
   CmdEvent.close_command_list,
   CmdEvent.execute_command_lists,
   CmdEvent.present_swapchain 1,
   CmdEvent.queue_signal rt.fence.fence_value]

/-- The `for mut render_target in render_targets` loop of `draw`. -/
def drawLoop : List WindowRenderTarget → List CmdEvent → List CmdEvent
  | [], _ => []
  | rt :: rest, pipeCmds => draw_render_target rt pipeCmds ++
      drawLoop rest pipeCmds

/-- `draw` (drawer.rs:45): returns early when no render target exists or the
pipeline has not been constructed yet; otherwise resets the command
allocator, resets the command list with the pipeline's state object, and
runs the per-render-target loop. -/
def draw (render_targets : List WindowRenderTarget)
    (pipeline_exists : Bool) (pipeCmds : List CmdEvent) : List CmdEvent :=
  if render_targets.isEmpty then []
  else if !pipeline_exists then []
  else
    CmdEvent.reset_command_allocator ::
      CmdEvent.reset_command_list_with_pipeline_state ::
        drawLoop render_targets pipeCmds

/-! ## Concrete inputs -/

/-- A device whose descriptor stride is 32 for every heap type. -/
def gpuUniform : Gpu :=
  { descriptorHandleIncrementSize := fun _ => 32 }

/-- A device reporting stride 32 for RTV heaps and 64 for CBV/SRV/UAV
heaps. -/
def gpuSplit : Gpu :=
  { descriptorHandleIncrementSize := fun t =>
      match t with
      | D3D12_DESCRIPTOR_HEAP_TYPE.rtv => 32
      | D3D12_DESCRIPTOR_HEAP_TYPE.cbv_srv_uav => 64 }

/-- The 2-slot RTV heap created in render/mod.rs:39, on `gpuUniform`. -/
def exHeapRtv : DescriptorHeap :=
  DescriptorHeap.new gpuUniform D3D12_DESCRIPTOR_HEAP_TYPE.rtv 2 0

/-- The 2-slot shader-visible CBV/SRV/UAV heap created in
naive_pathtracer.rs:353, on `gpuSplit`. -/
def exHeapSrv : DescriptorHeap :=
  DescriptorHeap.new gpuSplit D3D12_DESCRIPTOR_HEAP_TYPE.cbv_srv_uav 2 0

/-- A 1024 × 768 window (logical = physical). -/
def exWindow : Window :=
  { width := 1024, height := 768, physical_width := 1024,
    physical_height := 768 }

/-- A render target created for an 800 × 600 window, before any frame was
submitted. -/
def exRenderTarget : WindowRenderTarget :=
  { swapchain_desc := create_swapchain_desc
      { width := 800, height := 600, physical_width := 800,
        physical_height := 600 }
    rtv_handles := [0, 32]
    swapchain_buffer_index := 0
    fence := create_fence
    viewport := create_viewport 800 600
    rect := create_rect 800 600 }

/-! ## Claims -/

/-- C1, counterexample: the claim says the `(capacity+1)`-th call to the
slot allocator fails with `CapacityExceeded` (or panics) instead of
returning a handle past the end of the heap.  On the 2-slot heap of
render/mod.rs:39 the third `cpu_handle` call does not fail: it returns the
handle `heap_start + 2 * stride = 64`, which is at/past the end of the
heap (`heapEnd = 64`). -/
theorem c1_counterexample :
    exHeapRtv.nthHandle 2 = 64 ∧ exHeapRtv.heapEnd ≤ exHeapRtv.nthHandle 2 := by
  decide

/-- C1, amended: `cpu_handle` never fails however often it is called — there
is no capacity check.  The `(n+1)`-th call returns
`heap_start + n * stride`; in particular the `(capacity+1)`-th call returns
a handle at/past the end of the heap instead of failing. -/
theorem c1_no_capacity_check (gpu : Gpu) (t : D3D12_DESCRIPTOR_HEAP_TYPE)
    (capacity heap_start n : Nat) :
    (DescriptorHeap.new gpu t capacity heap_start).nthHandle n
      = heap_start +
          n * gpu.descriptorHandleIncrementSize D3D12_DESCRIPTOR_HEAP_TYPE.rtv ∧
    (DescriptorHeap.new gpu t capacity heap_start).heapEnd
      ≤ (DescriptorHeap.new gpu t capacity heap_start).nthHandle capacity := by
  constructor
  · rw [DescriptorHeap.nthHandle_eq]
    rfl
  · rw [DescriptorHeap.nthHandle_eq]
    apply le_of_eq
    simp [DescriptorHeap.new, DescriptorHeap.heapEnd]

/-- C5: the claim says each allocation advances the offset by the created
heap type's own stride as reported by the device for that type.  The source
(descriptor_heap.rs:34) queries `GetDescriptorHandleIncrementSize` with
`D3D12_DESCRIPTOR_HEAP_TYPE_RTV` regardless of the requested heap type: on a
device reporting stride 32 for RTV and 64 for CBV/SRV/UAV, consecutive
handles of the CBV/SRV/UAV heap of naive_pathtracer.rs:353 differ by 32, not
by the heap's own stride 64. -/
theorem c5_srv_heap_uses_rtv_stride :
    exHeapSrv.heap_type = D3D12_DESCRIPTOR_HEAP_TYPE.cbv_srv_uav ∧
    exHeapSrv.nthHandle 1 - exHeapSrv.nthHandle 0 = 32 ∧
    gpuSplit.descriptorHandleIncrementSize
      D3D12_DESCRIPTOR_HEAP_TYPE.cbv_srv_uav = 64 := by
  decide

/-- C2: the k-th submission's `signal_end_present` enqueues a queue Signal
for the pre-increment counter value `k - 1` and then bumps the counter;
`wait_frame_finished` reads `fence_value - 1 = k - 1` and returns
immediately exactly when the fence's completed value is at least `k - 1` —
in particular right after a signal, once the device reports the signalled
value completed, it does not block. -/
theorem c2_fence_signal_and_wait (k completed : Nat) (h1 : 1 ≤ k)
    (h2 : k ≤ U64_MOD) :
    nthSignal k = k - 1 ∧
    waitTarget (fenceAfter k) = k - 1 ∧
    (waitBlocks (fenceAfter k) completed = false ↔ k - 1 ≤ completed) ∧
    waitBlocks (fenceAfter k) (nthSignal k) = false := by
  have hM := U64_MOD_eq
  rw [hM] at h2
  have hs : nthSignal k = k - 1 := by
    rw [nthSignal_eq, hM]
    omega
  have ht : waitTarget (fenceAfter k) = k - 1 := by
    rw [fenceAfter_eq]
    simp only [waitTarget, hM]
    omega
  have hw : ∀ c : Nat, waitBlocks (fenceAfter k) c = false ↔ k - 1 ≤ c := by
    intro c
    simp [waitBlocks, ht, Nat.not_lt]
  exact ⟨hs, ht, hw completed, (hw (nthSignal k)).mpr (le_of_eq hs.symm)⟩

/-- Witness for C2 at k = 3, completed = 7. -/
theorem c2_fence_signal_and_wait_witness :
    1 ≤ 3 ∧ (3 : Nat) ≤ U64_MOD ∧
    (nthSignal 3 = 2 ∧
     waitTarget (fenceAfter 3) = 2 ∧
     (waitBlocks (fenceAfter 3) 7 = false ↔ 2 ≤ 7) ∧
     waitBlocks (fenceAfter 3) (nthSignal 3) = false) :=
  ⟨by norm_num, by rw [U64_MOD_eq]; norm_num,
   c2_fence_signal_and_wait 3 7 (by norm_num) (by rw [U64_MOD_eq]; norm_num)⟩

/-- C3, counterexample: the claim states the per-resize order as wait, drop
back-buffer handles, `ResizeBuffers`, recreate views, recompute
viewport/scissor.  On a resize from 800 × 600 to 1024 × 768 the code
recomputes the viewport *before* recreating the views (`handle_resize`,
render_target.rs:226-229), so the trace of the claimed key events is
wait, drop, resize, set-viewport, create-views — not the claimed order. -/
theorem c3_counterexample :
    (resize_swapchains_if_needed exWindow exRenderTarget).2.filter
        isResizeKeyEvent
      = [RtEvent.wait_frame_finished, RtEvent.destroy_resources,
         RtEvent.resize_buffers 2 1024 768 DXGI_FORMAT.r8g8b8a8_unorm 64,
         RtEvent.set_viewport (create_viewport 1024 768),
         RtEvent.create_rtvs] ∧
    [RtEvent.wait_frame_finished, RtEvent.destroy_resources,
     RtEvent.resize_buffers 2 1024 768 DXGI_FORMAT.r8g8b8a8_unorm 64,
     RtEvent.set_viewport (create_viewport 1024 768),
     RtEvent.create_rtvs]
      ≠ [RtEvent.wait_frame_finished, RtEvent.destroy_resources,
         RtEvent.resize_buffers 2 1024 768 DXGI_FORMAT.r8g8b8a8_unorm 64,
         RtEvent.create_rtvs,
         RtEvent.set_viewport (create_viewport 1024 768)] := by
  decide

/-- C3, amended: on every resize the order is wait, then drop the
back-buffer handles, then `ResizeBuffers`, then recompute viewport/scissor,
then recreate views; in particular `ResizeBuffers` is never invoked without
`wait_frame_finished` having completed earlier in the same frame's handling
of the window (the wait is the first action of the system). -/
theorem c3_wait_precedes_resize_buffers (window : Window)
    (rt : WindowRenderTarget)
    (hm : create_swapchain_desc window ≠ rt.swapchain_desc) :
    (resize_swapchains_if_needed window rt).2.head?
      = some RtEvent.wait_frame_finished ∧
    (resize_swapchains_if_needed window rt).2.filter isResizeKeyEvent
      = [RtEvent.wait_frame_finished, RtEvent.destroy_resources,
         RtEvent.resize_buffers FRAME_COUNT window.physical_width
           window.physical_height DXGI_FORMAT.r8g8b8a8_unorm
           DXGI_SWAP_CHAIN_FLAG_FRAME_LATENCY_WAITABLE_OBJECT,
         RtEvent.set_viewport (create_viewport window.width window.height),
         RtEvent.create_rtvs] := by
  simp only [resize_swapchains_if_needed]
  rw [if_pos hm]
  simp [handle_resize, isResizeKeyEvent, create_swapchain_desc]

/-- Witness for C3 (amended) on the 800 × 600 to 1024 × 768 resize. -/
theorem c3_wait_precedes_resize_buffers_witness :
    create_swapchain_desc exWindow ≠ exRenderTarget.swapchain_desc ∧
    ((resize_swapchains_if_needed exWindow exRenderTarget).2.head?
        = some RtEvent.wait_frame_finished ∧
     (resize_swapchains_if_needed exWindow exRenderTarget).2.filter
         isResizeKeyEvent
       = [RtEvent.wait_frame_finished, RtEvent.destroy_resources,
          RtEvent.resize_buffers 2 1024 768 DXGI_FORMAT.r8g8b8a8_unorm 64,
          RtEvent.set_viewport (create_viewport 1024 768),
          RtEvent.create_rtvs]) :=
  ⟨by decide,
   c3_wait_precedes_resize_buffers exWindow exRenderTarget (by decide)⟩

/-- C4: after `handle_resize(device, heap, create_swapchain_desc(window),
window.width(), window.height())` the viewport is the new logical size with
top-left (0,0), the scissor rect matches, and the dimensions passed to
`ResizeBuffers` are exactly the window's new physical size. -/
theorem c4_handle_resize_round_trip (rt : WindowRenderTarget)
    (window : Window) :
    (handle_resize rt (create_swapchain_desc window) window.width
        window.height).1.viewport
      = { TopLeftX := 0, TopLeftY := 0, Width := window.width,
          Height := window.height, MinDepth := 0, MaxDepth := 1 } ∧
    (handle_resize rt (create_swapchain_desc window) window.width
        window.height).1.rect
      = { left := 0, top := 0, right := (window.width : Int),
          bottom := (window.height : Int) } ∧
    (handle_resize rt (create_swapchain_desc window) window.width
        window.height).1.swapchain_desc.Width = window.physical_width ∧
    (handle_resize rt (create_swapchain_desc window) window.width
        window.height).1.swapchain_desc.Height = window.physical_height ∧
    (handle_resize rt (create_swapchain_desc window) window.width
        window.height).2.get? 1
      = some (RtEvent.resize_buffers FRAME_COUNT window.physical_width
          window.physical_height DXGI_FORMAT.r8g8b8a8_unorm
          DXGI_SWAP_CHAIN_FLAG_FRAME_LATENCY_WAITABLE_OBJECT) :=
  ⟨rfl, rfl, rfl, rfl, rfl⟩

/-- Mesh data whose position array occupies 1048584 bytes, 8 bytes more
than the 1 MiB staging capacity. -/
def oversizeMeshData : MeshData :=
  { positions := List.replicate 87382 { x := 0, y := 0, z := 0 }
    indices := []
    updated := true }

/-- C6, counterexample: the claim says `set_new_data` fails when the data
exceeds the fixed 1 MiB staging capacity.  The code has no bounds check: on
a position array of 87382 elements (1048584 bytes > 1048576) the full array
is copied into the staging buffer and nothing fails. -/
theorem c6_counterexample :
    ((MeshBuffer.mk [] []).set_new_data oversizeMeshData).upload_vertex_buffer
      = oversizeMeshData.positions ∧
    oversizeMeshData.positions.length * size_of_float3 = 1048584 ∧
    vertex_buffer_size < 1048584 := by
  refine ⟨rfl, ?_, ?_⟩
  · have h : oversizeMeshData.positions
        = List.replicate 87382 { x := 0, y := 0, z := 0 } := rfl
    rw [h, List.length_replicate]
    norm_num [size_of_float3]
  · norm_num [vertex_buffer_size]

/-- C6, amended: `set_new_data` never fails and performs no capacity check:
for every `MeshData` it copies exactly `positions.len()` position elements
and `indices.len()` index elements into the fixed 1 MiB upload buffers,
also when the data exceeds their capacity (an out-of-bounds write past the
staging buffers). -/
theorem c6_set_new_data_unchecked (mb : MeshBuffer) (data : MeshData) :
    (mb.set_new_data data).upload_vertex_buffer = data.positions ∧
    (mb.set_new_data data).upload_index_buffer = data.indices :=
  ⟨rfl, rfl⟩

/-- C7: a fresh `WindowRenderTarget` fence starts at 0;
`wait_frame_finished` computes `fence_value - 1` in u64 arithmetic with no
guard, so before any signal the subtraction underflows to `2^64 - 1`;
`resize_swapchains_if_needed` calls `wait_frame_finished` unconditionally as
its first action every frame; and `2^64 - 1` is never among the values
signalled in any run of fewer than `2^64` submissions. -/
theorem c7_first_wait_underflows (k : Nat) (hk : k < U64_MOD)
    (window : Window) (rt : WindowRenderTarget) :
    create_fence.fence_value = 0 ∧
    waitTarget create_fence = U64_MOD - 1 ∧
    (resize_swapchains_if_needed window rt).2.head?
      = some RtEvent.wait_frame_finished ∧
    U64_MOD - 1 ∉ signalTrace k := by
  refine ⟨rfl, ?_, ?_, ?_⟩
  · simp only [waitTarget, create_fence, U64_MOD_eq]
  · by_cases hm : create_swapchain_desc window ≠ rt.swapchain_desc
    · simp [resize_swapchains_if_needed, hm]
    · simp [resize_swapchains_if_needed, hm]
  · intro hmem
    have hlt := signalTrace_mem_lt k (U64_MOD - 1) hmem
    rw [U64_MOD_eq] at hk hlt
    omega

/-- Witness for C7 at k = 5, on a fresh 800 × 600 render target. -/
theorem c7_first_wait_underflows_witness :
    (5 : Nat) < U64_MOD ∧
    (create_fence.fence_value = 0 ∧
     waitTarget create_fence = U64_MOD - 1 ∧
     (resize_swapchains_if_needed exWindow exRenderTarget).2.head?
       = some RtEvent.wait_frame_finished ∧
     U64_MOD - 1 ∉ signalTrace 5) :=
  ⟨by rw [U64_MOD_eq]; norm_num,
   c7_first_wait_underflows 5 (by rw [U64_MOD_eq]; norm_num) exWindow
     exRenderTarget⟩

theorem ConstantBuffer.write_content (cb : ConstantBuffer) (d : List Nat)
    (hd : d.length = cb.size) (hc : cb.content.length = cb.size) :
    (cb.write d).content = d ∧ (cb.write d).size = cb.size ∧
    (cb.write d).content.length = cb.size := by
  have hcontent : (cb.write d).content = d := by
    simp only [ConstantBuffer.write, ← hd]
    rw [List.take_length, ← hd] at *
    rw [← hc, List.drop_length, List.append_nil]
  exact ⟨hcontent, rfl, by rw [hcontent, hd]⟩

/-- C8: `ConstantBuffer::<T>::create` allocates exactly `size_of::<T>()`
bytes of upload-heap memory, and `write` followed by a CPU readback of the
mapped region yields exactly the written `size_of::<T>()`-byte
representation, stable under repeated writes. -/
theorem c8_constant_buffer_round_trip (size_of_t : Nat) (d1 d2 : List Nat)
    (h1 : d1.length = size_of_t) (h2 : d2.length = size_of_t) :
    (ConstantBuffer.create size_of_t).size = size_of_t ∧
    (ConstantBuffer.create size_of_t).content.length = size_of_t ∧
    ((ConstantBuffer.create size_of_t).write d1).content = d1 ∧
    (((ConstantBuffer.create size_of_t).write d2).write d1).content = d1 := by
  have hcs : (ConstantBuffer.create size_of_t).size = size_of_t := rfl
  have hlen : (ConstantBuffer.create size_of_t).content.length = size_of_t := by
    simp [ConstantBuffer.create]
  have hw1 := ConstantBuffer.write_content (ConstantBuffer.create size_of_t)
    d1 (h1.trans hcs.symm) (hlen.trans hcs.symm)
  have hw2 := ConstantBuffer.write_content (ConstantBuffer.create size_of_t)
    d2 (h2.trans hcs.symm) (hlen.trans hcs.symm)
  have hw1sub := ConstantBuffer.write_content
    ((ConstantBuffer.create size_of_t).write d2) d1
    (h1.trans (hcs.symm.trans hw2.2.1.symm))
    (hw2.2.2.trans hw2.2.1.symm)
  exact ⟨rfl, hlen, hw1.1, hw1sub.1⟩

/-- Witness for C8 at size 4 with two concrete byte vectors. -/
theorem c8_constant_buffer_round_trip_witness :
    ([1, 2, 3, 4] : List Nat).length = 4 ∧
    ([5, 6, 7, 8] : List Nat).length = 4 ∧
    ((ConstantBuffer.create 4).size = 4 ∧
     (ConstantBuffer.create 4).content.length = 4 ∧
     ((ConstantBuffer.create 4).write [1, 2, 3, 4]).content = [1, 2, 3, 4] ∧
     (((ConstantBuffer.create 4).write [5, 6, 7, 8]).write
         [1, 2, 3, 4]).content = [1, 2, 3, 4]) :=
  ⟨by decide, by decide,
   c8_constant_buffer_round_trip 4 [1, 2, 3, 4] [5, 6, 7, 8] (by decide)
     (by decide)⟩

/-- C9: `MeshBuffer::upload` records exactly, in order: one barrier call
transitioning both GPU buffers GENERIC_READ → COPY_DEST, a copy from the
upload vertex buffer to the GPU vertex buffer, a copy from the upload index
buffer to the GPU index buffer, and one barrier call with the reverse
COPY_DEST → GENERIC_READ transition on both GPU buffers — and no other
commands. -/
theorem c9_upload_command_sequence (mb : MeshBuffer)
    (cl : GraphicsCommandList) :
    (mb.upload cl).commands = cl.commands ++
      [CmdEvent.resource_barrier
         [{ resource := GpuResource.gpu_vertex_buffer
            state_before := D3D12_RESOURCE_STATES.generic_read
            state_after := D3D12_RESOURCE_STATES.copy_dest },
          { resource := GpuResource.gpu_index_buffer
            state_before := D3D12_RESOURCE_STATES.generic_read
            state_after := D3D12_RESOURCE_STATES.copy_dest }],
       CmdEvent.copy_resource GpuResource.gpu_vertex_buffer
         GpuResource.upload_vertex_buffer,
       CmdEvent.copy_resource GpuResource.gpu_index_buffer
         GpuResource.upload_index_buffer,
       CmdEvent.resource_barrier
         [{ resource := GpuResource.gpu_vertex_buffer
            state_before := D3D12_RESOURCE_STATES.copy_dest
            state_after := D3D12_RESOURCE_STATES.generic_read },
          { resource := GpuResource.gpu_index_buffer
            state_before := D3D12_RESOURCE_STATES.copy_dest
            state_after := D3D12_RESOURCE_STATES.generic_read }]] := by
  simp [MeshBuffer.upload, GraphicsCommandList.resourceBarrier,
    GraphicsCommandList.copyResource]

/-- C10: with a render target and a constructed pipeline, one frame's draw
orchestration performs, in order: reset the command allocator, reset the
command list with the pipeline state, set viewport and scissor from the
render target, PRESENT → RENDER_TARGET barrier on the current back buffer,
bind the render-target view and clear it to the fixed background color,
record the pipeline's commands, RENDER_TARGET → PRESENT barrier, close and
submit the command list, Present with vsync interval 1, and signal the
fence for this submission. -/
theorem c10_draw_order (rt : WindowRenderTarget) (pipeCmds : List CmdEvent) :
    draw [rt] true pipeCmds
      = [CmdEvent.reset_command_allocator,
         CmdEvent.reset_command_list_with_pipeline_state,
         CmdEvent.set_viewports [rt.viewport],
         CmdEvent.set_scissor_rects [rt.rect],
         CmdEvent.resource_barrier
           [{ resource := GpuResource.back_buffer rt.swapchain_buffer_index
              state_before := D3D12_RESOURCE_STATES.present
              state_after := D3D12_RESOURCE_STATES.render_target }],
         CmdEvent.set_render_targets 1 (back_buffer_handle rt),
         CmdEvent.clear_render_target_view (back_buffer_handle rt)
           background_color,
         CmdEvent.write_camera_data]
        ++ pipeCmds ++
        [CmdEvent.resource_barrier
           [{ resource := GpuResource.back_buffer rt.swapchain_buffer_index
              state_before := D3D12_RESOURCE_STATES.render_target
              state_after := D3D12_RESOURCE_STATES.present }],
         CmdEvent.close_command_list,
         CmdEvent.execute_command_lists,
         CmdEvent.present_swapchain 1,
         CmdEvent.queue_signal rt.fence.fence_value] := by
  simp [draw, drawLoop, draw_render_target]

end BevyArca
